import Mathlib

set_option linter.unusedVariables false

/-!
Verification of the GitIngest MCP adapter (`src/index.ts`).

The adapter registers four tool operations (`ingest_github_repo`,
`get_repo_structure`, `analyze_code_files`, `get_repo_docs`) against an
external ingestion collaborator (`ingest` from `@magarcia/gitingest`).
Each handler translates its validated arguments into an option record,
invokes the collaborator exactly once, and serializes either a success
payload or a caught-error payload as pretty-printed JSON text.

The embedding below models each handler as a pure Lean function that is
parameterized by the collaborator (a function from repository URL and
option record to a result-or-error) and by the ambient clock (the string
`new Date().toISOString()` would produce at call time).  Each handler
returns the JSON reply object it would stringify, paired with the list of
collaborator invocations it performed, so that theorems can speak both
about the reply and about exactly what was passed to the collaborator.
-/

/-- JSON values, as built by the handlers before `JSON.stringify`. -/
inductive Json where
  | str (s : String)
  | num (n : Int)
  | arr (elems : List Json)
  | obj (fields : List (String × Json))

/-- Key lookup in a JSON object's field list (first match wins --
mirrors JavaScript object property access on the constructed literals,
whose keys are distinct). -/
def lookupKey (k : String) : List (String × Json) → Option Json
  | [] => none
  | (k₂, v) :: rest => if k = k₂ then some v else lookupKey k rest

/-- Property access on a JSON value: `none` when the key is absent or the
value is not an object. -/
def Json.lookup : Json → String → Option Json
  | .obj fields, k => lookupKey k fields
  | .str _, _ => none
  | .num _, _ => none
  | .arr _, _ => none

/-- The option record handed to the `ingest` collaborator.  A field whose
value is `none` models a key that is absent from the JavaScript options
object (never present as `null` or `0`). -/
structure IngestOptions where
  include_patterns : Option (List String)
  exclude_patterns : Option (List String)
  max_file_size : Option Int

/-- An error value caught by a handler's `catch` block: either an
`Error` instance carrying a `.message` string, or any other thrown
JavaScript value, kept here in its `String(error)` form. -/
inductive JsError where
  | errObj (message : String)
  | other (stringified : String)

/-- The handlers' message extraction:
`error instanceof Error ? error.message : String(error)`. -/
def errMessage : JsError → String
  | .errObj m => m
  | .other s => s

/-- The collaborator's success triple `[summary, tree, content]`. -/
abbrev IngestResult := String × String × String

/-- The collaborator: `ingest(repo_url, options)` either resolves to a
triple or rejects with an error value. -/
abbrev Collab := String → IngestOptions → Except JsError IngestResult

/-- One recorded invocation of the collaborator: the repository URL and
the option record it was called with. -/
structure CollabCall where
  repo_url : String
  options : IngestOptions

/-- The option bag built by `ingest_github_repo`:
`const options: any = {}` followed by one truthiness-guarded assignment
per optional argument.  A present `include_patterns`/`exclude_patterns`
array is always truthy (even when empty), so those keys are set exactly
when the argument is present; a present `max_file_size` number is truthy
exactly when it is nonzero, so a zero value leaves the key unset. -/
def mkIngestOptions (include_patterns exclude_patterns : Option (List String))
    (max_file_size : Option Int) : IngestOptions :=
  let o : IngestOptions := ⟨none, none, none⟩
  let o := match include_patterns with
    | some v => { o with include_patterns := some v }
    | none => o
  let o := match exclude_patterns with
    | some v => { o with exclude_patterns := some v }
    | none => o
  match max_file_size with
  | some n => if n ≠ 0 then { o with max_file_size := some n } else o
  | none => o

/-- JSON form of an option record, as `JSON.stringify` would render the
JavaScript options object: only the keys that were actually set appear. -/
def optionsJson (o : IngestOptions) : Json :=
  Json.obj
    ((match o.include_patterns with
      | some v => [("include_patterns", Json.arr (v.map Json.str))]
      | none => []) ++
     (match o.exclude_patterns with
      | some v => [("exclude_patterns", Json.arr (v.map Json.str))]
      | none => []) ++
     (match o.max_file_size with
      | some n => [("max_file_size", Json.num n)]
      | none => []))

/-- Handler of the `ingest_github_repo` tool.  `now` is the ambient clock
reading (`new Date().toISOString()`).  Returns the JSON reply object and
the list of collaborator invocations performed. -/
def ingest_github_repo (ingestF : Collab) (now repo_url : String)
    (include_patterns exclude_patterns : Option (List String))
    (max_file_size : Option Int) : Json × List CollabCall :=
  (match ingestF repo_url (mkIngestOptions include_patterns exclude_patterns max_file_size) with
    | .ok (summary, tree, content) =>
        Json.obj [("summary", .str summary), ("tree", .str tree), ("content", .str content),
          ("metadata", Json.obj [("repo_url", .str repo_url), ("timestamp", .str now),
            ("options_used",
              optionsJson (mkIngestOptions include_patterns exclude_patterns max_file_size))])]
    | .error e =>
        Json.obj [("error", .str "Failed to ingest repository"),
          ("message", .str (errMessage e)), ("repo_url", .str repo_url)],
   [⟨repo_url, mkIngestOptions include_patterns exclude_patterns max_file_size⟩])

/-- The option record `get_repo_structure` passes:
`{ max_file_size: 1 }` (minimize content retrieval). -/
def structureOptions : IngestOptions := ⟨none, none, some 1⟩

/-- Handler of the `get_repo_structure` tool: the collaborator's content
component is bound to `_` and dropped from the success reply. -/
def get_repo_structure (ingestF : Collab) (now repo_url : String) :
    Json × List CollabCall :=
  (match ingestF repo_url structureOptions with
    | .ok (summary, tree, _) =>
        Json.obj [("summary", .str summary), ("tree", .str tree),
          ("repo_url", .str repo_url)]
    | .error e =>
        Json.obj [("error", .str "Failed to get repository structure"),
          ("message", .str (errMessage e)), ("repo_url", .str repo_url)],
   [⟨repo_url, structureOptions⟩])

/-- The closed language enumeration of `analyze_code_files`
(`z.enum([...])`). -/
inductive Lang where
  | python
  | javascript
  | typescript
  | go
  | rust
  | java
  | csharp

/-- The string form of each enumerated language. -/
def languageStr : Lang → String
  | .python => "python"
  | .javascript => "javascript"
  | .typescript => "typescript"
  | .go => "go"
  | .rust => "rust"
  | .java => "java"
  | .csharp => "csharp"

/-- The static `patternMap` of `analyze_code_files`. -/
def patternMap : Lang → List String
  | .python => ["*.py"]
  | .javascript => ["*.js", "*.mjs"]
  | .typescript => ["*.ts", "*.tsx"]
  | .go => ["*.go"]
  | .rust => ["*.rs"]
  | .java => ["*.java"]
  | .csharp => ["*.cs"]

/-- The option record `analyze_code_files` passes: the language's
include patterns, the fixed exclude list, and the fixed 100KB limit. -/
def analyzeOptions (language : Lang) : IngestOptions :=
  ⟨some (patternMap language),
   some ["node_modules/*", "dist/*", "build/*", "*.min.js"],
   some 102400⟩

/-- Handler of the `analyze_code_files` tool (after schema validation has
produced a value of the closed `Lang` enumeration). -/
def analyze_code_files (ingestF : Collab) (now repo_url : String)
    (language : Lang) : Json × List CollabCall :=
  (match ingestF repo_url (analyzeOptions language) with
    | .ok (summary, tree, content) =>
        Json.obj [("summary", .str summary), ("tree", .str tree), ("content", .str content),
          ("analysis", Json.obj [("language", .str (languageStr language)),
            ("patterns_used", Json.arr ((patternMap language).map Json.str)),
            ("repo_url", .str repo_url)])]
    | .error e =>
        Json.obj [("error", .str "Failed to analyze code files"),
          ("message", .str (errMessage e)), ("repo_url", .str repo_url),
          ("language", .str (languageStr language))],
   [⟨repo_url, analyzeOptions language⟩])

/-- The option record `get_repo_docs` passes: the fixed documentation
glob set and the fixed 50KB limit; no `exclude_patterns` key. -/
def docsOptions : IngestOptions :=
  ⟨some ["*.md", "*.mdx", "*.txt", "LICENSE*", "README*"], none, some 51200⟩

/-- Handler of the `get_repo_docs` tool. -/
def get_repo_docs (ingestF : Collab) (now repo_url : String) :
    Json × List CollabCall :=
  (match ingestF repo_url docsOptions with
    | .ok (summary, tree, content) =>
        Json.obj [("summary", .str summary), ("tree", .str tree), ("content", .str content),
          ("metadata", Json.obj [("type", .str "documentation"),
            ("repo_url", .str repo_url)])]
    | .error e =>
        Json.obj [("error", .str "Failed to get repository documentation"),
          ("message", .str (errMessage e)), ("repo_url", .str repo_url)],
   [⟨repo_url, docsOptions⟩])

/-- Validation of the `language` argument against the declared
`z.enum(["python", "javascript", "typescript", "go", "rust", "java", "csharp"])`
schema: exactly the seven enumerated strings parse. -/
def parseLanguage (s : String) : Option Lang :=
  if s = "python" then some .python
  else if s = "javascript" then some .javascript
  else if s = "typescript" then some .typescript
  else if s = "go" then some .go
  else if s = "rust" then some .rust
  else if s = "java" then some .java
  else if s = "csharp" then some .csharp
  else none

/-- Modelled from the spec: the tool registry (the MCP server transport,
not part of `src/`) validates each call's arguments against the declared
zod schema before invoking the handler; a value outside the declared
enumeration is rejected as a schema-level structured failure and the
handler body -- hence the collaborator -- is never reached.  The returned
call list is the complete record of collaborator invocations for the
call. -/
def analyze_code_files_tool (ingestF : Collab) (now repo_url language : String) :
    Except String Json × List CollabCall :=
  match parseLanguage language with
  | none => (.error ("Invalid enum value: " ++ language), [])
  | some lang =>
      let r := analyze_code_files ingestF now repo_url lang
      (.ok r.1, r.2)

/-- Indentation: `n` spaces. -/
def pad (n : Nat) : String := String.mk (List.replicate n ' ')

/-- One hexadecimal digit (lowercase), for escape sequences. -/
def hexDigit (n : Nat) : Char :=
  if n < 10 then Char.ofNat ('0'.toNat + n) else Char.ofNat ('a'.toNat + n - 10)

/-- Four lowercase hexadecimal digits. -/
def hex4 (n : Nat) : String :=
  String.mk [hexDigit (n / 4096 % 16), hexDigit (n / 256 % 16),
    hexDigit (n / 16 % 16), hexDigit (n % 16)]

/-- String escaping of one character, as `JSON.stringify` performs it. -/
def escapeChar (c : Char) : String :=
  if c = '"' then "\\\""
  else if c = '\\' then "\\\\"
  else if c = '\n' then "\\n"
  else if c = '\r' then "\\r"
  else if c = '\t' then "\\t"
  else if c = '\x08' then "\\b"
  else if c = '\x0c' then "\\f"
  else if c.toNat < 32 then "\\u" ++ hex4 c.toNat
  else String.singleton c

/-- A JSON string literal: quoted and escaped. -/
def quoteStr (s : String) : String :=
  "\"" ++ String.join (s.data.map escapeChar) ++ "\""

mutual

/-- `JSON.stringify(v, null, 2)` at indentation level `ind`. -/
def renderJson : Nat → Json → String
  | _, .str s => quoteStr s
  | _, .num n => toString n
  | _, .arr [] => "[]"
  | ind, .arr (x :: xs) =>
      "[\n" ++ pad (ind + 2) ++ renderJson (ind + 2) x ++ renderElems (ind + 2) xs
        ++ "\n" ++ pad ind ++ "]"
  | _, .obj [] => "\x7b\x7d"
  | ind, .obj ((k, v) :: fs) =>
      "\x7b\n" ++ pad (ind + 2) ++ quoteStr k ++ ": " ++ renderJson (ind + 2) v
        ++ renderFields (ind + 2) fs ++ "\n" ++ pad ind ++ "\x7d"

/-- The remaining elements of a non-empty array. -/
def renderElems : Nat → List Json → String
  | _, [] => ""
  | ind, x :: xs => ",\n" ++ pad ind ++ renderJson ind x ++ renderElems ind xs

/-- The remaining fields of a non-empty object. -/
def renderFields : Nat → List (String × Json) → String
  | _, [] => ""
  | ind, (k, v) :: fs =>
      ",\n" ++ pad ind ++ quoteStr k ++ ": " ++ renderJson ind v ++ renderFields ind fs

end

/-- One content block of an MCP tool reply (`{ type: "text", text }`). -/
structure ContentBlock where
  type : String
  text : String

/-- The reply value each handler returns: `{ content: [ ... ] }`. -/
structure ToolReply where
  content : List ContentBlock

/-- Wrapping of a reply object as the single text content block every
handler produces: `{ content: [{ type: "text", text: JSON.stringify(obj, null, 2) }] }`. -/
def toolReply (j : Json) : ToolReply :=
  ⟨[⟨"text", renderJson 0 j⟩]⟩

/-- The full serialized reply of `ingest_github_repo`. -/
def ingest_github_repo_reply (ingestF : Collab) (now repo_url : String)
    (include_patterns exclude_patterns : Option (List String))
    (max_file_size : Option Int) : ToolReply :=
  toolReply (ingest_github_repo ingestF now repo_url include_patterns
    exclude_patterns max_file_size).1

/-- The full serialized reply of `get_repo_structure`. -/
def get_repo_structure_reply (ingestF : Collab) (now repo_url : String) : ToolReply :=
  toolReply (get_repo_structure ingestF now repo_url).1

/-- The full serialized reply of `analyze_code_files`. -/
def analyze_code_files_reply (ingestF : Collab) (now repo_url : String)
    (language : Lang) : ToolReply :=
  toolReply (analyze_code_files ingestF now repo_url language).1

/-- The full serialized reply of `get_repo_docs`. -/
def get_repo_docs_reply (ingestF : Collab) (now repo_url : String) : ToolReply :=
  toolReply (get_repo_docs ingestF now repo_url).1

/-! ## Helper lemmas about the option-bag construction -/

lemma mkIngestOptions_include_patterns (ip ep : Option (List String)) (mfs : Option Int) :
    (mkIngestOptions ip ep mfs).include_patterns = ip := by
  cases ip <;> cases ep <;> cases mfs <;> simp [mkIngestOptions] <;> split_ifs <;> rfl

lemma mkIngestOptions_exclude_patterns (ip ep : Option (List String)) (mfs : Option Int) :
    (mkIngestOptions ip ep mfs).exclude_patterns = ep := by
  cases ip <;> cases ep <;> cases mfs <;> simp [mkIngestOptions] <;> split_ifs <;> rfl

lemma mkIngestOptions_max_some (ip ep : Option (List String)) (n : Int) (hn : n ≠ 0) :
    (mkIngestOptions ip ep (some n)).max_file_size = some n := by
  cases ip <;> cases ep <;> simp [mkIngestOptions, hn]

lemma mkIngestOptions_max_zero (ip ep : Option (List String)) :
    (mkIngestOptions ip ep (some 0)).max_file_size = none := by
  cases ip <;> cases ep <;> simp [mkIngestOptions]

lemma mkIngestOptions_max_none (ip ep : Option (List String)) :
    (mkIngestOptions ip ep none).max_file_size = none := by
  cases ip <;> cases ep <;> simp [mkIngestOptions]

/-! ## Claims -/

/-- Claim C1, counterexample: an error whose extracted message is the
empty string (`new Error("")`) yields a failure reply of
`ingest_github_repo` whose message field is the empty string, so the
reply's message is not non-empty as the claim states. -/
theorem C1_counterexample :
    (ingest_github_repo (fun _ _ => Except.error (JsError.errObj "")) "t0" "r0"
        none none none).1.lookup "error" =
      some (Json.str "Failed to ingest repository")
    ∧ (ingest_github_repo (fun _ _ => Except.error (JsError.errObj "")) "t0" "r0"
        none none none).1.lookup "message" = some (Json.str "") :=
  ⟨rfl, rfl⟩

/-- Claim C1, amended: for every one of the four operations, whenever the
collaborator's ingest call raises an error, the reply is the failure
shape: its error kind names the operation that failed, its message equals
the error text extracted from the raised value (so it is non-empty
exactly when that text is non-empty), and its context carries the input
repository reference (and, for `analyze_code_files`, the language). -/
theorem C1_failure_reply_fields (f : Collab) (now repo : String)
    (ip ep : Option (List String)) (mfs : Option Int) (lang : Lang) (e : JsError)
    (h1 : f repo (mkIngestOptions ip ep mfs) = Except.error e)
    (h2 : f repo structureOptions = Except.error e)
    (h3 : f repo (analyzeOptions lang) = Except.error e)
    (h4 : f repo docsOptions = Except.error e) :
    ((ingest_github_repo f now repo ip ep mfs).1.lookup "error" =
        some (Json.str "Failed to ingest repository")
      ∧ (ingest_github_repo f now repo ip ep mfs).1.lookup "message" =
        some (Json.str (errMessage e))
      ∧ (ingest_github_repo f now repo ip ep mfs).1.lookup "repo_url" =
        some (Json.str repo))
    ∧ ((get_repo_structure f now repo).1.lookup "error" =
        some (Json.str "Failed to get repository structure")
      ∧ (get_repo_structure f now repo).1.lookup "message" =
        some (Json.str (errMessage e))
      ∧ (get_repo_structure f now repo).1.lookup "repo_url" =
        some (Json.str repo))
    ∧ ((analyze_code_files f now repo lang).1.lookup "error" =
        some (Json.str "Failed to analyze code files")
      ∧ (analyze_code_files f now repo lang).1.lookup "message" =
        some (Json.str (errMessage e))
      ∧ (analyze_code_files f now repo lang).1.lookup "repo_url" =
        some (Json.str repo)
      ∧ (analyze_code_files f now repo lang).1.lookup "language" =
        some (Json.str (languageStr lang)))
    ∧ ((get_repo_docs f now repo).1.lookup "error" =
        some (Json.str "Failed to get repository documentation")
      ∧ (get_repo_docs f now repo).1.lookup "message" =
        some (Json.str (errMessage e))
      ∧ (get_repo_docs f now repo).1.lookup "repo_url" =
        some (Json.str repo)) := by
  have e1 : (ingest_github_repo f now repo ip ep mfs).1 =
      Json.obj [("error", .str "Failed to ingest repository"),
        ("message", .str (errMessage e)), ("repo_url", .str repo)] := by
    simp [ingest_github_repo, h1]
  have e2 : (get_repo_structure f now repo).1 =
      Json.obj [("error", .str "Failed to get repository structure"),
        ("message", .str (errMessage e)), ("repo_url", .str repo)] := by
    simp [get_repo_structure, h2]
  have e3 : (analyze_code_files f now repo lang).1 =
      Json.obj [("error", .str "Failed to analyze code files"),
        ("message", .str (errMessage e)), ("repo_url", .str repo),
        ("language", .str (languageStr lang))] := by
    simp [analyze_code_files, h3]
  have e4 : (get_repo_docs f now repo).1 =
      Json.obj [("error", .str "Failed to get repository documentation"),
        ("message", .str (errMessage e)), ("repo_url", .str repo)] := by
    simp [get_repo_docs, h4]
  refine ⟨⟨?_, ?_, ?_⟩, ⟨?_, ?_, ?_⟩, ⟨?_, ?_, ?_, ?_⟩, ⟨?_, ?_, ?_⟩⟩ <;>
    simp only [e1, e2, e3, e4] <;> rfl

/-- Witness for C1 at a concrete erroring collaborator. -/
theorem C1_failure_reply_fields_witness :
    ((ingest_github_repo (fun _ _ => Except.error (JsError.errObj "boom")) "t0" "r0"
        none none none).1.lookup "error" =
        some (Json.str "Failed to ingest repository")
      ∧ (ingest_github_repo (fun _ _ => Except.error (JsError.errObj "boom")) "t0" "r0"
        none none none).1.lookup "message" =
        some (Json.str (errMessage (JsError.errObj "boom")))
      ∧ (ingest_github_repo (fun _ _ => Except.error (JsError.errObj "boom")) "t0" "r0"
        none none none).1.lookup "repo_url" = some (Json.str "r0"))
    ∧ ((get_repo_structure (fun _ _ => Except.error (JsError.errObj "boom")) "t0" "r0").1.lookup "error" =
        some (Json.str "Failed to get repository structure")
      ∧ (get_repo_structure (fun _ _ => Except.error (JsError.errObj "boom")) "t0" "r0").1.lookup "message" =
        some (Json.str (errMessage (JsError.errObj "boom")))
      ∧ (get_repo_structure (fun _ _ => Except.error (JsError.errObj "boom")) "t0" "r0").1.lookup "repo_url" =
        some (Json.str "r0"))
    ∧ ((analyze_code_files (fun _ _ => Except.error (JsError.errObj "boom")) "t0" "r0" Lang.python).1.lookup "error" =
        some (Json.str "Failed to analyze code files")
      ∧ (analyze_code_files (fun _ _ => Except.error (JsError.errObj "boom")) "t0" "r0" Lang.python).1.lookup "message" =
        some (Json.str (errMessage (JsError.errObj "boom")))
      ∧ (analyze_code_files (fun _ _ => Except.error (JsError.errObj "boom")) "t0" "r0" Lang.python).1.lookup "repo_url" =
        some (Json.str "r0")
      ∧ (analyze_code_files (fun _ _ => Except.error (JsError.errObj "boom")) "t0" "r0" Lang.python).1.lookup "language" =
        some (Json.str (languageStr Lang.python)))
    ∧ ((get_repo_docs (fun _ _ => Except.error (JsError.errObj "boom")) "t0" "r0").1.lookup "error" =
        some (Json.str "Failed to get repository documentation")
      ∧ (get_repo_docs (fun _ _ => Except.error (JsError.errObj "boom")) "t0" "r0").1.lookup "message" =
        some (Json.str (errMessage (JsError.errObj "boom")))
      ∧ (get_repo_docs (fun _ _ => Except.error (JsError.errObj "boom")) "t0" "r0").1.lookup "repo_url" =
        some (Json.str "r0")) :=
  C1_failure_reply_fields (fun _ _ => Except.error (JsError.errObj "boom")) "t0" "r0"
    none none none Lang.python (JsError.errObj "boom") rfl rfl rfl rfl

/-- Claim C2, counterexample: with `max_file_size` present but equal to
zero, the option set passed to the collaborator has no `max_file_size`
key, so the present field does not appear verbatim as the claim states. -/
theorem C2_counterexample :
    (ingest_github_repo (fun _ _ => Except.ok ("", "", "")) "t0" "r0"
        none none (some 0)).2 =
      [⟨"r0", ⟨none, none, none⟩⟩]
    ∧ (⟨none, none, none⟩ : IngestOptions).max_file_size ≠ some 0 :=
  ⟨rfl, fun h => Option.noConfusion h⟩

/-- Claim C2, amended: for every input to `ingest_github_repo`, the
collaborator is invoked exactly once with the constructed option set;
a present `include_patterns` or `exclude_patterns` appears verbatim under
its key and an absent one is omitted; a present nonzero `max_file_size`
appears verbatim under its key, while an absent — or present but zero —
`max_file_size` is entirely omitted from the option set. -/
theorem C2_options_translation (f : Collab) (now repo : String)
    (ip ep : Option (List String)) (mfs : Option Int) :
    (ingest_github_repo f now repo ip ep mfs).2 = [⟨repo, mkIngestOptions ip ep mfs⟩]
    ∧ (mkIngestOptions ip ep mfs).include_patterns = ip
    ∧ (mkIngestOptions ip ep mfs).exclude_patterns = ep
    ∧ (∀ n : Int, n ≠ 0 → mfs = some n → (mkIngestOptions ip ep mfs).max_file_size = some n)
    ∧ ((mfs = none ∨ mfs = some 0) → (mkIngestOptions ip ep mfs).max_file_size = none) := by
  refine ⟨rfl, mkIngestOptions_include_patterns ip ep mfs,
    mkIngestOptions_exclude_patterns ip ep mfs, ?_, ?_⟩
  · intro n hn hmfs
    subst hmfs
    exact mkIngestOptions_max_some ip ep n hn
  · rintro (hmfs | hmfs) <;> subst hmfs
    · exact mkIngestOptions_max_none ip ep
    · exact mkIngestOptions_max_zero ip ep

/-- Witness for C2 at concrete inputs: a present nonzero size appears
verbatim, and an absent size is omitted. -/
theorem C2_options_translation_witness :
    (mkIngestOptions (some ["*.py"]) (some []) (some 7)).include_patterns = some ["*.py"]
    ∧ (mkIngestOptions (some ["*.py"]) (some []) (some 7)).max_file_size = some 7
    ∧ (mkIngestOptions (some ["*.py"]) (some []) none).max_file_size = none :=
  ⟨(C2_options_translation (fun _ _ => Except.ok ("", "", "")) "t0" "r0"
      (some ["*.py"]) (some []) (some 7)).2.1,
   (C2_options_translation (fun _ _ => Except.ok ("", "", "")) "t0" "r0"
      (some ["*.py"]) (some []) (some 7)).2.2.2.1 7 (by decide) rfl,
   (C2_options_translation (fun _ _ => Except.ok ("", "", "")) "t0" "r0"
      (some ["*.py"]) (some []) none).2.2.2.2 (Or.inl rfl)⟩

/-- Claim C3: calling `ingest_github_repo` with `max_file_size = 0`
(present but falsy) passes to the collaborator the same option set as
when the field is unset, and that option set has no `max_file_size`
key. -/
theorem C3_zero_max_file_size_omitted (f : Collab) (now repo : String)
    (ip ep : Option (List String)) :
    (ingest_github_repo f now repo ip ep (some 0)).2 =
      [⟨repo, mkIngestOptions ip ep none⟩]
    ∧ (mkIngestOptions ip ep (some 0)).max_file_size = none := by
  constructor
  · rfl
  · exact mkIngestOptions_max_zero ip ep

/-- Claim C4: `analyze_code_files` with language `python` always invokes
the collaborator with `include_patterns = ["*.py"]`, the fixed exclude
list and `max_file_size = 102400`, regardless of the other inputs; the
same holds through the validating tool layer given the raw string
"python". -/
theorem C4_python_invocation (f : Collab) (now repo : String) :
    (analyze_code_files f now repo Lang.python).2 =
      [⟨repo, ⟨some ["*.py"],
        some ["node_modules/*", "dist/*", "build/*", "*.min.js"], some 102400⟩⟩]
    ∧ (analyze_code_files_tool f now repo "python").2 =
      [⟨repo, ⟨some ["*.py"],
        some ["node_modules/*", "dist/*", "build/*", "*.min.js"], some 102400⟩⟩] :=
  ⟨rfl, rfl⟩

/-- Claim C5: `get_repo_structure` always invokes the collaborator with
`max_file_size = 1` (and no pattern keys), and on collaborator success
its reply carries exactly summary, tree and the repository reference —
the content component is dropped even when non-empty. -/
theorem C5_structure_invocation (f : Collab) (now repo s t c : String)
    (h : f repo structureOptions = Except.ok (s, t, c)) :
    (get_repo_structure f now repo).2 = [⟨repo, structureOptions⟩]
    ∧ structureOptions.max_file_size = some 1
    ∧ (get_repo_structure f now repo).1 =
        Json.obj [("summary", .str s), ("tree", .str t), ("repo_url", .str repo)]
    ∧ (get_repo_structure f now repo).1.lookup "content" = none := by
  have hr : (get_repo_structure f now repo).1 =
      Json.obj [("summary", .str s), ("tree", .str t), ("repo_url", .str repo)] := by
    simp [get_repo_structure, h]
  refine ⟨rfl, rfl, hr, ?_⟩
  rw [hr]
  rfl

/-- Witness for C5 with a collaborator returning non-empty content. -/
theorem C5_structure_invocation_witness :
    (get_repo_structure (fun _ _ => Except.ok ("s0", "t0", "CONTENT")) "now0" "r0").2 =
      [⟨"r0", structureOptions⟩]
    ∧ structureOptions.max_file_size = some 1
    ∧ (get_repo_structure (fun _ _ => Except.ok ("s0", "t0", "CONTENT")) "now0" "r0").1 =
        Json.obj [("summary", .str "s0"), ("tree", .str "t0"), ("repo_url", .str "r0")]
    ∧ (get_repo_structure (fun _ _ => Except.ok ("s0", "t0", "CONTENT")) "now0" "r0").1.lookup
        "content" = none :=
  C5_structure_invocation (fun _ _ => Except.ok ("s0", "t0", "CONTENT"))
    "now0" "r0" "s0" "t0" "CONTENT" rfl

/-- Claim C6: `get_repo_docs` always invokes the collaborator with
include patterns exactly the documentation glob set, `max_file_size`
51200, and no `exclude_patterns` key. -/
theorem C6_docs_invocation (f : Collab) (now repo : String) :
    (get_repo_docs f now repo).2 = [⟨repo, docsOptions⟩]
    ∧ docsOptions.include_patterns = some ["*.md", "*.mdx", "*.txt", "LICENSE*", "README*"]
    ∧ docsOptions.max_file_size = some 51200
    ∧ docsOptions.exclude_patterns = none :=
  ⟨rfl, rfl, rfl, rfl⟩

/-- Claim C7: any `language` string outside the closed enumeration fails
schema validation: the tool layer returns a structured error and the
collaborator is never invoked (the call trace is empty). -/
theorem C7_invalid_language_rejected (f : Collab) (now repo lang : String)
    (h : lang ∉ ["python", "javascript", "typescript", "go", "rust", "java", "csharp"]) :
    parseLanguage lang = none
    ∧ (analyze_code_files_tool f now repo lang).2 = []
    ∧ (analyze_code_files_tool f now repo lang).1 =
        Except.error ("Invalid enum value: " ++ lang) := by
  simp only [List.mem_cons, List.not_mem_nil, or_false] at h
  push_neg at h
  obtain ⟨h1, h2, h3, h4, h5, h6, h7⟩ := h
  have hp : parseLanguage lang = none := by
    simp [parseLanguage, h1, h2, h3, h4, h5, h6, h7]
  exact ⟨hp, by simp [analyze_code_files_tool, hp], by simp [analyze_code_files_tool, hp]⟩

/-- Witness for C7 at `language = "ruby"`. -/
theorem C7_invalid_language_rejected_witness :
    parseLanguage "ruby" = none
    ∧ (analyze_code_files_tool (fun _ _ => Except.ok ("", "", "")) "t0" "r0" "ruby").2 = []
    ∧ (analyze_code_files_tool (fun _ _ => Except.ok ("", "", "")) "t0" "r0" "ruby").1 =
        Except.error ("Invalid enum value: " ++ "ruby") :=
  C7_invalid_language_rejected (fun _ _ => Except.ok ("", "", "")) "t0" "r0" "ruby"
    (by decide)

/-- Claim C8: for every error value raised by the collaborator — whether
an `Error` instance or any other thrown value — every one of the four
handlers catches it and returns the complete, well-formed failure reply
object carrying the extracted message string; no error escapes a handler
(each handler is a total function into reply objects). -/
theorem C8_errors_caught (e : JsError) (f : Collab) (now repo : String)
    (ip ep : Option (List String)) (mfs : Option Int) (lang : Lang)
    (h : ∀ u o, f u o = Except.error e) :
    (ingest_github_repo f now repo ip ep mfs).1 =
      Json.obj [("error", .str "Failed to ingest repository"),
        ("message", .str (errMessage e)), ("repo_url", .str repo)]
    ∧ (get_repo_structure f now repo).1 =
      Json.obj [("error", .str "Failed to get repository structure"),
        ("message", .str (errMessage e)), ("repo_url", .str repo)]
    ∧ (analyze_code_files f now repo lang).1 =
      Json.obj [("error", .str "Failed to analyze code files"),
        ("message", .str (errMessage e)), ("repo_url", .str repo),
        ("language", .str (languageStr lang))]
    ∧ (get_repo_docs f now repo).1 =
      Json.obj [("error", .str "Failed to get repository documentation"),
        ("message", .str (errMessage e)), ("repo_url", .str repo)] := by
  refine ⟨?_, ?_, ?_, ?_⟩ <;>
    simp [ingest_github_repo, get_repo_structure, analyze_code_files, get_repo_docs, h]

/-- Witness for C8 with a non-`Error` thrown value (`throw 42`, whose
`String(error)` form is "42"). -/
theorem C8_errors_caught_witness :
    (ingest_github_repo (fun _ _ => Except.error (JsError.other "42")) "t0" "r0"
        none none none).1 =
      Json.obj [("error", .str "Failed to ingest repository"),
        ("message", .str (errMessage (JsError.other "42"))), ("repo_url", .str "r0")]
    ∧ (get_repo_structure (fun _ _ => Except.error (JsError.other "42")) "t0" "r0").1 =
      Json.obj [("error", .str "Failed to get repository structure"),
        ("message", .str (errMessage (JsError.other "42"))), ("repo_url", .str "r0")]
    ∧ (analyze_code_files (fun _ _ => Except.error (JsError.other "42")) "t0" "r0" Lang.go).1 =
      Json.obj [("error", .str "Failed to analyze code files"),
        ("message", .str (errMessage (JsError.other "42"))), ("repo_url", .str "r0"),
        ("language", .str (languageStr Lang.go))]
    ∧ (get_repo_docs (fun _ _ => Except.error (JsError.other "42")) "t0" "r0").1 =
      Json.obj [("error", .str "Failed to get repository documentation"),
        ("message", .str (errMessage (JsError.other "42"))), ("repo_url", .str "r0")] :=
  C8_errors_caught (JsError.other "42") (fun _ _ => Except.error (JsError.other "42"))
    "t0" "r0" none none none Lang.go (fun _ _ => rfl)

/-- Claim C9: on collaborator success, `ingest_github_repo` replies with
the collaborator's summary, tree and content together with metadata
echoing the input repository reference, the exact option set passed to
the collaborator, and the completion timestamp; and the collaborator was
invoked exactly once, with that option set. -/
theorem C9_success_payload (f : Collab) (now repo s t c : String)
    (ip ep : Option (List String)) (mfs : Option Int)
    (h : f repo (mkIngestOptions ip ep mfs) = Except.ok (s, t, c)) :
    (ingest_github_repo f now repo ip ep mfs).1 =
      Json.obj [("summary", .str s), ("tree", .str t), ("content", .str c),
        ("metadata", Json.obj [("repo_url", .str repo), ("timestamp", .str now),
          ("options_used", optionsJson (mkIngestOptions ip ep mfs))])]
    ∧ (ingest_github_repo f now repo ip ep mfs).2 =
        [⟨repo, mkIngestOptions ip ep mfs⟩] := by
  constructor
  · simp [ingest_github_repo, h]
  · rfl

/-- Witness for C9 at a concrete succeeding collaborator. -/
theorem C9_success_payload_witness :
    (ingest_github_repo (fun _ _ => Except.ok ("s0", "t0", "c0")) "now0" "r0"
        (some ["*.md"]) none (some 5)).1 =
      Json.obj [("summary", .str "s0"), ("tree", .str "t0"), ("content", .str "c0"),
        ("metadata", Json.obj [("repo_url", .str "r0"), ("timestamp", .str "now0"),
          ("options_used", optionsJson (mkIngestOptions (some ["*.md"]) none (some 5)))])]
    ∧ (ingest_github_repo (fun _ _ => Except.ok ("s0", "t0", "c0")) "now0" "r0"
        (some ["*.md"]) none (some 5)).2 =
        [⟨"r0", mkIngestOptions (some ["*.md"]) none (some 5)⟩] :=
  C9_success_payload (fun _ _ => Except.ok ("s0", "t0", "c0")) "now0" "r0"
    "s0" "t0" "c0" (some ["*.md"]) none (some 5) rfl

/-- Claim C10: the serialized replies of `get_repo_structure`,
`analyze_code_files` and `get_repo_docs` are deterministic functions of
the input and the collaborator's outcome: for any two call times and any
two collaborators that agree on the one invocation the handler performs,
the rendered reply text is character-for-character identical — these
replies embed no timestamp or other call-time-dependent value. -/
theorem C10_deterministic_replies (f g : Collab) (now₁ now₂ repo : String) (lang : Lang)
    (h1 : f repo structureOptions = g repo structureOptions)
    (h2 : f repo (analyzeOptions lang) = g repo (analyzeOptions lang))
    (h3 : f repo docsOptions = g repo docsOptions) :
    get_repo_structure_reply f now₁ repo = get_repo_structure_reply g now₂ repo
    ∧ analyze_code_files_reply f now₁ repo lang = analyze_code_files_reply g now₂ repo lang
    ∧ get_repo_docs_reply f now₁ repo = get_repo_docs_reply g now₂ repo := by
  refine ⟨?_, ?_, ?_⟩ <;>
    simp [get_repo_structure_reply, analyze_code_files_reply, get_repo_docs_reply,
      get_repo_structure, analyze_code_files, get_repo_docs, h1, h2, h3]

/-- Witness for C10: two different call times yield identical replies. -/
theorem C10_deterministic_replies_witness :
    get_repo_structure_reply (fun _ _ => Except.ok ("s", "t", "c")) "t1" "r0" =
      get_repo_structure_reply (fun _ _ => Except.ok ("s", "t", "c")) "t2" "r0"
    ∧ analyze_code_files_reply (fun _ _ => Except.ok ("s", "t", "c")) "t1" "r0" Lang.go =
      analyze_code_files_reply (fun _ _ => Except.ok ("s", "t", "c")) "t2" "r0" Lang.go
    ∧ get_repo_docs_reply (fun _ _ => Except.ok ("s", "t", "c")) "t1" "r0" =
      get_repo_docs_reply (fun _ _ => Except.ok ("s", "t", "c")) "t2" "r0" :=
  C10_deterministic_replies (fun _ _ => Except.ok ("s", "t", "c"))
    (fun _ _ => Except.ok ("s", "t", "c")) "t1" "t2" "r0" Lang.go rfl rfl rfl
